import Mathlib

/-!
Verification development for the freecad-microservice repository.

The repository consists of two FastAPI variants of one HTTP service:
`src/main_freecad.py` (size/MIME validation, rate limiting, note scraping)
and `src/main.py` (the simpler variant). Both expose `POST /unfold`, which
writes the upload to a temp file, optionally parses/rescales DXF input with
the ezdxf library, imports the shape into the FreeCAD kernel, unfolds it via
the SheetMetal extension, and returns a JSON payload, cleaning temp files in
a `finally` block.

The shallow embedding below models each handler as a total Lean function.
External collaborators (ezdxf, the FreeCAD kernel, the SheetMetal unfolder,
libmagic) are opaque: their per-request outcomes are fields of an `Env`
record, with fallible calls as `Except String` values, exactly the failure
points the Python code can observe as exceptions. Filesystem effects are
made explicit: the run result records every temp file created, the files
remaining after the `finally` block, and the entity list written to the
`_ascii.dxf` copy. The temp-name supply is modelled deterministically: the
upload temp file is named `T0` plus the suffix and the flat-pattern export
temp file `T1.dxf`; the ascii copy name is `tmp_path + "_ascii.dxf"` as in
the source.
-/

/-- JSON values, as far as the service responses need them. -/
inductive Json where
  | null : Json
  | str : String → Json
  | num : ℚ → Json
  | arr : List Json → Json
  | obj : List (String × Json) → Json
deriving Repr

/-- An HTTP response body: either a JSON object (`JSONResponse` in the
source) or plain text (the slowapi 429 handler text `Response`). -/
inductive HttpBody where
  | jsonObj : List (String × Json) → HttpBody
  | text : String → HttpBody
deriving Repr

/-- An HTTP response: status code plus body. -/
structure Response where
  status : Nat
  body : HttpBody
deriving Repr

/-- The fields of a JSON-object response body (empty for a text body). -/
def Response.fields (r : Response) : List (String × Json) :=
  match r.body with
  | .jsonObj fs => fs
  | .text _ => []

/-- The keys of a JSON-object response body, in order. -/
def Response.keys (r : Response) : List String :=
  r.fields.map Prod.fst

/-- Look up a key in a JSON object field list (first match). -/
def getField (fs : List (String × Json)) (k : String) : Option Json :=
  (fs.find? (fun p => p.1 == k)).map Prod.snd

/-- An uploaded file as the handler observes it: its filename, its size in
bytes (what `file.file.seek(0, SEEK_END); file.file.tell()` measures), and
the MIME type libmagic detects on its first 2048 bytes. -/
structure Upload where
  filename : String
  size : Nat
  mime : String

/-- A modelspace entity of a DXF document. The geometry itself is opaque
(`gid`); `scale` is the accumulated uniform scale factor applied to it, and
`scalable` records whether `e.scale_uniform(...)` succeeds on it (the source
wraps the call in `try/except: continue`). -/
structure Entity where
  gid : Nat
  scale : ℚ
  scalable : Bool
deriving Repr, DecidableEq

/-- What `ezdxf.readfile` yields, as far as the handler reads it: the
`$INSUNITS` header variable (absent models a missing header entry; the
source reads it with default 0), the layer names, the text-entity strings,
and the modelspace entity list. -/
structure DxfDoc where
  insunits : Option Int
  layers : List String
  notes : List String
  msp : List Entity

/-- The bounding box of a shape, the only view of kernel geometry the handlers
use (`BoundBox.XLength/YLength/ZLength`). -/
structure Shape where
  xlen : ℚ
  ylen : ℚ
  zlen : ℚ
deriving Repr, DecidableEq

/-- Per-request outcomes of every external call the handlers make. Each
`Except` is the value or the exception text of one library call site. -/
structure Env where
  /-- Outcome of `ezdxf.readfile(tmp_path)`. -/
  readfileResult : Except String DxfDoc
  /-- Outcome of `dxf_doc.saveas(ascii_path, encoding="utf-8")`. -/
  saveasResult : Except String Unit
  /-- Outcome of `Import.insert` / `Import.importDXF` followed by
  `doc.Objects[-1]`: the shape of the imported object. -/
  insertResult : Except String Shape
  /-- Outcome of `Part.read(tmp_path)` on the non-DXF path. -/
  partReadResult : Except String Shape
  /-- `some ()` when the SheetMetalUnfolder module loaded at startup,
  `none` when module loading failed and the global is `None`. -/
  unfolder : Option Unit
  /-- Outcome of `SheetMetalUnfolder.makeUnfold(obj)` plus the recompute:
  the flat shape. -/
  unfoldResult : Except String Shape
  /-- Outcome of `Import.export([flat_obj], flat_dxf_path)` followed by
  reading the file back: the exported DXF text. -/
  exportResult : Except String String

/-- The observable outcome of one request: the HTTP response, every temp
file path created while handling it, the paths still on disk after the
`finally` block ran, and the entity list written to the `_ascii.dxf` copy
(`none` when no ascii copy was written). -/
structure RunResult where
  response : Response
  created : List String
  remaining : List String
  asciiSaved : Option (List Entity)
deriving Repr

/-- Does the character list `needle` occur at the head of `hay`? -/
def chStartsWith : List Char → List Char → Bool
  | [], _ => true
  | _ :: _, [] => false
  | a :: as, b :: bs => a == b && chStartsWith as bs

/-- Does the character list `needle` occur anywhere inside `hay`?
Models the Python `needle in hay` substring test. -/
def chHasSub (needle : List Char) : List Char → Bool
  | [] => needle.isEmpty
  | c :: cs => chStartsWith needle (c :: cs) || chHasSub needle cs

/-- The Python `needle in hay` substring test on strings. -/
def strContains (hay needle : String) : Bool :=
  chHasSub needle.toList hay.toList

/-- The characters after the last path separator: the basename. -/
def basenameChars (cs : List Char) : List Char :=
  cs.foldl (fun acc c => if c == '/' then [] else acc ++ [c]) []

/-- The Python `str.lower()`, character by character. -/
def lowerStr (s : String) : String :=
  String.mk (s.toList.map Char.toLower)

/-- The extension part of `os.path.splitext(name)`: the suffix of the basename
from its last dot, where a run of leading dots does not start an
extension. -/
def extOf (name : String) : String :=
  let rest := (basenameChars name.toList).dropWhile (fun c => c == '.')
  if rest.contains '.' then
    let revTail := rest.reverse.takeWhile (fun c => ¬ c == '.')
    String.mk ('.' :: revTail.reverse)
  else ""

/-- Rounding half to even, as the Python builtin `round` does. -/
def roundHalfEven (x : ℚ) : ℤ :=
  let f := ⌊x⌋
  let frac := x - f
  if frac < 1/2 then f
  else if 1/2 < frac then f + 1
  else if f % 2 = 0 then f else f + 1

/-- `mm_to_inches(val_mm)` from src/main_freecad.py:
`round(val_mm * 0.0393701, 3)` with the default 3 decimals. -/
def mm_to_inches (valMm : ℚ) : ℚ :=
  (roundHalfEven (valMm * (393701/10000000) * 1000) : ℚ) / 1000

/-- The MIME allowlist of src/main_freecad.py line 101. -/
def allowedMimes : List String :=
  ["application/dxf", "application/octet-stream", "text/plain"]

/-- Unit detection from the `$INSUNITS` value, src/main_freecad.py lines
113-125: initialised to `("unknown", 1.0)`, set to `("mm", 0.03937)` when
the value is 4 and `("inch", 1.0)` when it is 1. -/
def detectUnits (units : Int) : String × ℚ :=
  if units = 4 then ("mm", 3937/100000)
  else if units = 1 then ("inch", 1)
  else ("unknown", 1)

/-- One `e.scale_uniform(scaling_factor)` attempt: entities whose scaling
raises are left unchanged (`except Exception: continue`). -/
def scaleEntity (f : ℚ) (e : Entity) : Entity :=
  if e.scalable then { e with scale := e.scale * f } else e

/-- The rescaling loop, src/main_freecad.py lines 130-136: only runs when
the scaling factor differs from 1.0. -/
def scaleMsp (f : ℚ) (es : List Entity) : List Entity :=
  if f ≠ 1 then es.map (scaleEntity f) else es

/-- The note-scraping loop, src/main_freecad.py lines 179-187: walks the
parsed notes and fills (customer_name, part_number, part_description) by
substring matching on the lowercased note, each from the text after the
last colon, stripped. -/
def scrapeNotes (notes : List String) : Option String × Option String × Option String :=
  notes.foldl
    (fun acc note =>
      let lo := lowerStr note
      let v := ((note.splitOn ":").getLastD note).trim
      if strContains lo "customer" then (some v, acc.2.1, acc.2.2)
      else if strContains lo "part" && strContains lo "no" then (acc.1, some v, acc.2.2)
      else if strContains lo "desc" then (acc.1, acc.2.1, some v)
      else acc)
    (none, none, none)

/-- The `finally` block of both handlers: remove the file `tmp_path` names
now and the file `flat_dxf_path` names now, when set. Returns the created
files still on disk afterwards. -/
def runFinally (created : List String) (tmpPath flatPath : Option String) : List String :=
  created.filter (fun p => !(tmpPath == some p) && !(flatPath == some p))

/-- JSON value of a Python `None`-or-string variable. -/
def optStr : Option String → Json
  | some s => .str s
  | none => .null

/-- The `flat_pattern` response value: a dict of the flat bounding-box X/Y
lengths in mm, or null when no unfold result exists. -/
def flatPatternJson : Option Shape → Json
  | some f => .obj [("flat_x_mm", .num f.xlen), ("flat_y_mm", .num f.ylen)]
  | none => .null

/-- The `flat_pattern_in` response value of src/main_freecad.py: the flat
dimensions converted to inches, or null. -/
def flatPatternInJson : Option Shape → Json
  | some f => .obj [("flat_x_in", .num (mm_to_inches f.xlen)),
                    ("flat_y_in", .num (mm_to_inches f.ylen))]
  | none => .null

namespace MainFreecad

/-- The 413 response of src/main_freecad.py line 96. -/
def resp413 : Response :=
  ⟨413, .jsonObj [("error", .str "File too large. Max 2MB")]⟩

/-- The 415 response of src/main_freecad.py line 102. -/
def resp415 (mime : String) : Response :=
  ⟨415, .jsonObj [("error", .str "Unsupported file type"),
                  ("detected_mime", .str mime)]⟩

/-- The outer-catch 500 response of src/main_freecad.py line 206. -/
def resp500request (details : String) : Response :=
  ⟨500, .jsonObj [("error", .str "Request failed"), ("details", .str details)]⟩

/-- The inner-catch 500 response of src/main_freecad.py line 173. -/
def resp500unfoldFail (details : String) : Response :=
  ⟨500, .jsonObj [("error", .str "Unfolding failed"), ("details", .str details)]⟩

/-- The success JSON of src/main_freecad.py lines 189-201. `flat` and
`dxfData` are both set or both absent: the code reaches the return with
them set only when the whole unfold block succeeded. -/
def respSuccess (shape : Shape) (flat : Option Shape) (dxfData : Option String)
    (layers notes : List String) (units : String) : Response :=
  let scraped := scrapeNotes notes
  ⟨200, .jsonObj
    [("flat_pattern", flatPatternJson flat),
     ("flat_pattern_in", flatPatternInJson flat),
     ("thickness_mm", .num shape.zlen),
     ("thickness_in", .num (mm_to_inches shape.zlen)),
     ("parsed_layers", .arr (layers.map Json.str)),
     ("parsed_notes", .arr (notes.map Json.str)),
     ("dxf_units", .str units),
     ("customer_name", optStr scraped.1),
     ("part_number", optStr scraped.2.1),
     ("part_description", optStr scraped.2.2),
     ("flat_dxf", optStr dxfData)]⟩

/-- src/main_freecad.py lines 148-201: everything after the shape import
step. `created` lists the temp files made so far, `tmpPath` is the
current value of the `tmp_path` variable, `ascii` the entity list written
to the ascii copy when one was written. -/
def afterImport (env : Env) (created : List String) (tmpPath : String)
    (ascii : Option (List Entity)) (units : String) (layers notes : List String)
    (shape : Shape) : RunResult :=
  match env.unfolder with
  | none =>
    { response := respSuccess shape none none layers notes units
      created := created
      remaining := runFinally created (some tmpPath) none
      asciiSaved := ascii }
  | some _ =>
    match env.unfoldResult with
    | .error e =>
      { response := resp500unfoldFail e
        created := created
        remaining := runFinally created (some tmpPath) none
        asciiSaved := ascii }
    | .ok flatShape =>
      let flatPath := "T1.dxf"
      match env.exportResult with
      | .error e =>
        { response := resp500unfoldFail e
          created := created ++ [flatPath]
          remaining := runFinally (created ++ [flatPath]) (some tmpPath) (some flatPath)
          asciiSaved := ascii }
      | .ok dxfData =>
        { response := respSuccess shape (some flatShape) (some dxfData) layers notes units
          created := created ++ [flatPath]
          remaining := runFinally (created ++ [flatPath]) (some tmpPath) (some flatPath)
          asciiSaved := ascii }

/-- The `POST /unfold` handler of src/main_freecad.py lines 86-211: size
check, MIME check, temp write, extension dispatch, DXF parse/rescale/save,
kernel import, unfold, response assembly, with the outer catch mapping
every library failure to a 500 and the `finally` block removing the files
currently named by `tmp_path` and `flat_dxf_path`. -/
def unfold (env : Env) (file : Upload) : RunResult :=
  if file.size > 2 * 1024 * 1024 then
    { response := resp413, created := [], remaining := [], asciiSaved := none }
  else if !(allowedMimes.contains file.mime) then
    { response := resp415 file.mime, created := [], remaining := [], asciiSaved := none }
  else
    let suffix := lowerStr (extOf file.filename)
    let tmp0 := "T0" ++ suffix
    if suffix = ".dxf" then
      match env.readfileResult with
      | .error e =>
        { response := resp500request e
          created := [tmp0]
          remaining := runFinally [tmp0] (some tmp0) none
          asciiSaved := none }
      | .ok dxf =>
        let du := detectUnits (dxf.insunits.getD 0)
        let scaled := scaleMsp du.2 dxf.msp
        let asciiPath := tmp0 ++ "_ascii.dxf"
        match env.saveasResult with
        | .error e =>
          { response := resp500request e
            created := [tmp0]
            remaining := runFinally [tmp0] (some tmp0) none
            asciiSaved := none }
        | .ok _ =>
          match env.insertResult with
          | .error e =>
            { response := resp500request e
              created := [tmp0, asciiPath]
              remaining := runFinally [tmp0, asciiPath] (some asciiPath) none
              asciiSaved := some scaled }
          | .ok shape =>
            afterImport env [tmp0, asciiPath] asciiPath (some scaled)
              du.1 dxf.layers dxf.notes shape
    else
      match env.partReadResult with
      | .error e =>
        { response := resp500request e
          created := [tmp0]
          remaining := runFinally [tmp0] (some tmp0) none
          asciiSaved := none }
      | .ok shape =>
        afterImport env [tmp0] tmp0 none "unknown" [] [] shape

end MainFreecad

namespace MainPy

/-- The outer-catch 500 response of src/main.py lines 129-132. -/
def resp500 (details : String) : Response :=
  ⟨500, .jsonObj [("error", .str "Unfolding failed"), ("details", .str details)]⟩

/-- The success JSON of src/main.py lines 115-126. -/
def respSuccess (shape : Shape) (flat : Option Shape) (dxfData : Option String)
    (layers notes : List String) (units : String) : Response :=
  ⟨200, .jsonObj
    [("bounding_box_mm", .obj [("x", .num shape.xlen), ("y", .num shape.ylen),
                               ("z", .num shape.zlen)]),
     ("flat_pattern", flatPatternJson flat),
     ("flat_dxf", optStr dxfData),
     ("parsed_layers", .arr (layers.map Json.str)),
     ("parsed_notes", .arr (notes.map Json.str)),
     ("dxf_units", .str units)]⟩

/-- src/main.py lines 94-126: the unfold block (no inner catch: its
failures reach the outer catch) and the response assembly. -/
def afterImport (env : Env) (created : List String) (tmpPath : String)
    (ascii : Option (List Entity)) (units : String) (layers notes : List String)
    (shape : Shape) : RunResult :=
  match env.unfolder with
  | none =>
    { response := respSuccess shape none none layers notes units
      created := created
      remaining := runFinally created (some tmpPath) none
      asciiSaved := ascii }
  | some _ =>
    match env.unfoldResult with
    | .error e =>
      { response := resp500 e
        created := created
        remaining := runFinally created (some tmpPath) none
        asciiSaved := ascii }
    | .ok flatShape =>
      let flatPath := "T1.dxf"
      match env.exportResult with
      | .error e =>
        { response := resp500 e
          created := created ++ [flatPath]
          remaining := runFinally (created ++ [flatPath]) (some tmpPath) (some flatPath)
          asciiSaved := ascii }
      | .ok dxfData =>
        { response := respSuccess shape (some flatShape) (some dxfData) layers notes units
          created := created ++ [flatPath]
          remaining := runFinally (created ++ [flatPath]) (some tmpPath) (some flatPath)
          asciiSaved := ascii }

/-- The `POST /unfold` handler of src/main.py lines 36-137: no size or MIME
validation, extension dispatch, DXF parse/rescale/save, kernel import,
unfold, response assembly, one outer catch, same `finally` block. -/
def unfold (env : Env) (file : Upload) : RunResult :=
  let suffix := lowerStr (extOf file.filename)
  let tmp0 := "T0" ++ suffix
  if suffix = ".dxf" then
    match env.readfileResult with
    | .error e =>
      { response := resp500 e
        created := [tmp0]
        remaining := runFinally [tmp0] (some tmp0) none
        asciiSaved := none }
    | .ok dxf =>
      let du := detectUnits (dxf.insunits.getD 0)
      let scaled := scaleMsp du.2 dxf.msp
      let asciiPath := tmp0 ++ "_ascii.dxf"
      match env.saveasResult with
      | .error e =>
        { response := resp500 e
          created := [tmp0]
          remaining := runFinally [tmp0] (some tmp0) none
          asciiSaved := none }
      | .ok _ =>
        match env.insertResult with
        | .error e =>
          { response := resp500 e
            created := [tmp0, asciiPath]
            remaining := runFinally [tmp0, asciiPath] (some asciiPath) none
            asciiSaved := some scaled }
        | .ok shape =>
          afterImport env [tmp0, asciiPath] asciiPath (some scaled)
            du.1 dxf.layers dxf.notes shape
  else
    match env.partReadResult with
    | .error e =>
      { response := resp500 e
        created := [tmp0]
        remaining := runFinally [tmp0] (some tmp0) none
        asciiSaved := none }
    | .ok shape =>
      afterImport env [tmp0] tmp0 none "unknown" [] [] shape

end MainPy

/-- One incoming request as the rate limiter keys it: the remote address
(`get_remote_address`) and its arrival time bucketed to the minute. -/
structure ClientReq where
  addr : String
  minute : Nat

/-- Requests already counted against the window of `r`: same remote address,
same minute. The limit string "10/minute" and the per-address key function
are configured in src/main_freecad.py line 74; the window counting itself
is the external slowapi backend, modelled as a per-address per-minute
window. -/
def countWindow (history : List ClientReq) (r : ClientReq) : Nat :=
  (history.filter (fun h => h.addr == r.addr && h.minute == r.minute)).length

/-- The 429 response of `rate_limit_handler`, src/main_freecad.py lines
78-80. -/
def resp429 : Response :=
  ⟨429, .text "Rate limit exceeded. Please slow down."⟩

/-- The middleware-wrapped endpoint: the slowapi middleware admits the
request to the handler while fewer than 10 requests from the same address
arrived in the same minute, and otherwise raises RateLimitExceeded, which
`rate_limit_handler` turns into the 429 response. -/
def rateLimitedUnfold (env : Env) (file : Upload)
    (history : List ClientReq) (r : ClientReq) : Response :=
  if countWindow history r < 10 then (MainFreecad.unfold env file).response
  else resp429

/-! Concrete fixtures used by witnesses and counterexamples. -/

/-- A DXF document whose header declares millimetres. -/
def docMm : DxfDoc :=
  ⟨some 4, ["0", "NOTES"], ["Customer: Acme", "Part No: 7", "Desc: bracket"],
   [⟨0, 1, true⟩, ⟨1, 2, false⟩]⟩

/-- A DXF document whose header declares inches. -/
def docInch : DxfDoc := ⟨some 1, ["0"], [], [⟨0, 1, true⟩]⟩

/-- A DXF document with no `$INSUNITS` header entry. -/
def docNoUnits : DxfDoc := ⟨none, ["0"], [], [⟨0, 1, true⟩]⟩

/-- A sample imported shape. -/
def shapeA : Shape := ⟨100, 50, 2⟩

/-- A sample flat-pattern shape. -/
def flatA : Shape := ⟨120, 60, 0⟩

/-- An environment in which every external call succeeds. -/
def envOk : Env := ⟨.ok docMm, .ok (), .ok shapeA, .ok shapeA, some (), .ok flatA, .ok "FLATDXF"⟩

/-- Like `envOk` but the DXF parses to the inch document. -/
def envInch : Env := { envOk with readfileResult := .ok docInch }

/-- Like `envOk` but the DXF parses with no units header. -/
def envNoUnits : Env := { envOk with readfileResult := .ok docNoUnits }

/-- Like `envOk` but the SheetMetalUnfolder module failed to load. -/
def envNoUnfolder : Env := { envOk with unfolder := none }

/-- Like `envOk` but `ezdxf.readfile` raises. -/
def envReadFail : Env := { envOk with readfileResult := .error "readfile boom" }

/-- A small DXF upload with an allowed MIME type. -/
def fileDxf : Upload := ⟨"part.dxf", 100, "text/plain"⟩

/-- A small STEP upload with an allowed MIME type. -/
def fileStep : Upload := ⟨"part.step", 100, "application/octet-stream"⟩

/-- An upload over the 2 MB limit. -/
def fileBig : Upload := ⟨"big.dxf", 3 * 1024 * 1024, "text/plain"⟩

/-- An upload with a disallowed detected MIME type. -/
def fileBadMime : Upload := ⟨"part.dxf", 100, "image/png"⟩

/-- The import path of a request succeeded: on the DXF branch the
readfile, saveas and import calls all returned, and on the generic branch
`Part.read` returned. -/
def importPathOk (env : Env) (suffix : String) : Prop :=
  if suffix = ".dxf" then
    (∃ d, env.readfileResult = .ok d) ∧ env.saveasResult = .ok () ∧
      (∃ s, env.insertResult = .ok s)
  else ∃ s, env.partReadResult = .ok s

/-- Ten prior requests from one address within one minute. -/
def history10 : List ClientReq := List.replicate 10 ⟨"10.0.0.1", 7⟩

/-! Helper lemmas shared by the claim theorems. -/

/-- Every run of the main_freecad handler ends in exactly one of its five
response shapes. -/
lemma unfoldFC_response_cases (env : Env) (file : Upload) :
    (MainFreecad.unfold env file).response = MainFreecad.resp413 ∨
    (MainFreecad.unfold env file).response = MainFreecad.resp415 file.mime ∨
    (∃ e, (MainFreecad.unfold env file).response = MainFreecad.resp500request e) ∨
    (∃ e, (MainFreecad.unfold env file).response = MainFreecad.resp500unfoldFail e) ∨
    (∃ s f dx l n u, (MainFreecad.unfold env file).response
      = MainFreecad.respSuccess s f dx l n u) := by
  by_cases h1 : file.size > 2 * 1024 * 1024
  · left; simp [MainFreecad.unfold, h1]
  by_cases h2 : file.mime ∈ allowedMimes
  · by_cases h3 : lowerStr (extOf file.filename) = ".dxf"
    · cases hr : env.readfileResult with
      | error e =>
        right; right; left
        exact ⟨e, by simp [MainFreecad.unfold, h1, h2, h3, hr]⟩
      | ok d =>
        cases hs : env.saveasResult with
        | error e =>
          right; right; left
          exact ⟨e, by simp [MainFreecad.unfold, h1, h2, h3, hr, hs]⟩
        | ok u =>
          cases hi : env.insertResult with
          | error e =>
            right; right; left
            exact ⟨e, by simp [MainFreecad.unfold, h1, h2, h3, hr, hs, hi]⟩
          | ok s =>
            cases hu : env.unfolder with
            | none =>
              right; right; right; right
              refine ⟨s, none, none, d.layers, d.notes, (detectUnits (d.insunits.getD 0)).1, ?_⟩
              simp [MainFreecad.unfold, MainFreecad.afterImport, h1, h2, h3, hr, hs, hi, hu]
            | some w =>
              cases hm : env.unfoldResult with
              | error e =>
                right; right; right; left
                exact ⟨e, by
                  simp [MainFreecad.unfold, MainFreecad.afterImport, h1, h2, h3, hr, hs, hi, hu, hm]⟩
              | ok f =>
                cases he : env.exportResult with
                | error e =>
                  right; right; right; left
                  exact ⟨e, by
                    simp [MainFreecad.unfold, MainFreecad.afterImport,
                      h1, h2, h3, hr, hs, hi, hu, hm, he]⟩
                | ok dx =>
                  right; right; right; right
                  refine ⟨s, some f, some dx, d.layers, d.notes, (detectUnits (d.insunits.getD 0)).1, ?_⟩
                  simp [MainFreecad.unfold, MainFreecad.afterImport,
                    h1, h2, h3, hr, hs, hi, hu, hm, he]
    · cases hp : env.partReadResult with
      | error e =>
        right; right; left
        exact ⟨e, by simp [MainFreecad.unfold, h1, h2, h3, hp]⟩
      | ok s =>
        cases hu : env.unfolder with
        | none =>
          right; right; right; right
          refine ⟨s, none, none, [], [], "unknown", ?_⟩
          simp [MainFreecad.unfold, MainFreecad.afterImport, h1, h2, h3, hp, hu]
        | some w =>
          cases hm : env.unfoldResult with
          | error e =>
            right; right; right; left
            exact ⟨e, by
              simp [MainFreecad.unfold, MainFreecad.afterImport, h1, h2, h3, hp, hu, hm]⟩
          | ok f =>
            cases he : env.exportResult with
            | error e =>
              right; right; right; left
              exact ⟨e, by
                simp [MainFreecad.unfold, MainFreecad.afterImport, h1, h2, h3, hp, hu, hm, he]⟩
            | ok dx =>
              right; right; right; right
              refine ⟨s, some f, some dx, [], [], "unknown", ?_⟩
              simp [MainFreecad.unfold, MainFreecad.afterImport, h1, h2, h3, hp, hu, hm, he]
  · right; left
    simp [MainFreecad.unfold, h1, h2]

/-- Every run of the main.py handler ends in one of its two response
shapes. -/
lemma unfoldPy_response_cases (env : Env) (file : Upload) :
    (∃ e, (MainPy.unfold env file).response = MainPy.resp500 e) ∨
    (∃ s f dx l n u, (MainPy.unfold env file).response = MainPy.respSuccess s f dx l n u) := by
  by_cases h3 : lowerStr (extOf file.filename) = ".dxf"
  · cases hr : env.readfileResult with
    | error e => left; exact ⟨e, by simp [MainPy.unfold, h3, hr]⟩
    | ok d =>
      cases hs : env.saveasResult with
      | error e => left; exact ⟨e, by simp [MainPy.unfold, h3, hr, hs]⟩
      | ok u =>
        cases hi : env.insertResult with
        | error e => left; exact ⟨e, by simp [MainPy.unfold, h3, hr, hs, hi]⟩
        | ok s =>
          cases hu : env.unfolder with
          | none =>
            right
            exact ⟨s, none, none, d.layers, d.notes, (detectUnits (d.insunits.getD 0)).1,
              by simp [MainPy.unfold, MainPy.afterImport, h3, hr, hs, hi, hu]⟩
          | some w =>
            cases hm : env.unfoldResult with
            | error e =>
              left
              exact ⟨e, by simp [MainPy.unfold, MainPy.afterImport, h3, hr, hs, hi, hu, hm]⟩
            | ok f =>
              cases he : env.exportResult with
              | error e =>
                left
                exact ⟨e, by simp [MainPy.unfold, MainPy.afterImport, h3, hr, hs, hi, hu, hm, he]⟩
              | ok dx =>
                right
                exact ⟨s, some f, some dx, d.layers, d.notes, (detectUnits (d.insunits.getD 0)).1,
                  by simp [MainPy.unfold, MainPy.afterImport, h3, hr, hs, hi, hu, hm, he]⟩
  · cases hp : env.partReadResult with
    | error e => left; exact ⟨e, by simp [MainPy.unfold, h3, hp]⟩
    | ok s =>
      cases hu : env.unfolder with
      | none =>
        right
        exact ⟨s, none, none, [], [], "unknown",
          by simp [MainPy.unfold, MainPy.afterImport, h3, hp, hu]⟩
      | some w =>
        cases hm : env.unfoldResult with
        | error e =>
          left
          exact ⟨e, by simp [MainPy.unfold, MainPy.afterImport, h3, hp, hu, hm]⟩
        | ok f =>
          cases he : env.exportResult with
          | error e =>
            left
            exact ⟨e, by simp [MainPy.unfold, MainPy.afterImport, h3, hp, hu, hm, he]⟩
          | ok dx =>
            right
            exact ⟨s, some f, some dx, [], [], "unknown",
              by simp [MainPy.unfold, MainPy.afterImport, h3, hp, hu, hm, he]⟩

/-- C3: an upload over the 2 MB threshold is rejected with HTTP 413 and an
error body; no temp file is written, and no library call is consulted: the
whole run is identical under every environment. -/
theorem oversize_upload_rejected_413 (env env2 : Env) (file : Upload)
    (h : file.size > 2 * 1024 * 1024) :
    (MainFreecad.unfold env file).response.status = 413 ∧
    getField (MainFreecad.unfold env file).response.fields "error"
      = some (.str "File too large. Max 2MB") ∧
    (MainFreecad.unfold env file).created = [] ∧
    MainFreecad.unfold env file = MainFreecad.unfold env2 file := by
  have hrw : MainFreecad.unfold env file = ⟨MainFreecad.resp413, [], [], none⟩ := by
    simp [MainFreecad.unfold, h]
  have hrw2 : MainFreecad.unfold env2 file = ⟨MainFreecad.resp413, [], [], none⟩ := by
    simp [MainFreecad.unfold, h]
  rw [hrw, hrw2]
  exact ⟨rfl, rfl, rfl, rfl⟩

/-- Witness for C3: a 3 MB upload is rejected with 413, creates no temp
file, and the outcome does not depend on the environment. -/
theorem oversize_upload_rejected_413_check :
    (MainFreecad.unfold envOk fileBig).response.status = 413 ∧
    getField (MainFreecad.unfold envOk fileBig).response.fields "error"
      = some (.str "File too large. Max 2MB") ∧
    (MainFreecad.unfold envOk fileBig).created = [] ∧
    MainFreecad.unfold envOk fileBig = MainFreecad.unfold envReadFail fileBig :=
  oversize_upload_rejected_413 envOk envReadFail fileBig (by decide)

/-- C4: an upload whose detected MIME type is outside the allowlist is
rejected with HTTP 415, the body carries the detected MIME type, no temp
file is written, and no library call is consulted. -/
theorem bad_mime_rejected_415 (env env2 : Env) (file : Upload)
    (hsize : ¬ file.size > 2 * 1024 * 1024)
    (hmime : file.mime ∉ allowedMimes) :
    (MainFreecad.unfold env file).response.status = 415 ∧
    getField (MainFreecad.unfold env file).response.fields "error"
      = some (.str "Unsupported file type") ∧
    getField (MainFreecad.unfold env file).response.fields "detected_mime"
      = some (.str file.mime) ∧
    (MainFreecad.unfold env file).created = [] ∧
    MainFreecad.unfold env file = MainFreecad.unfold env2 file := by
  have hrw : MainFreecad.unfold env file = ⟨MainFreecad.resp415 file.mime, [], [], none⟩ := by
    simp [MainFreecad.unfold, hsize, hmime]
  have hrw2 : MainFreecad.unfold env2 file = ⟨MainFreecad.resp415 file.mime, [], [], none⟩ := by
    simp [MainFreecad.unfold, hsize, hmime]
  rw [hrw, hrw2]
  exact ⟨rfl, rfl, rfl, rfl, rfl⟩

/-- Witness for C4: an upload detected as image/png is rejected with 415
and the body names that MIME type. -/
theorem bad_mime_rejected_415_check :
    (MainFreecad.unfold envOk fileBadMime).response.status = 415 ∧
    getField (MainFreecad.unfold envOk fileBadMime).response.fields "error"
      = some (.str "Unsupported file type") ∧
    getField (MainFreecad.unfold envOk fileBadMime).response.fields "detected_mime"
      = some (.str "image/png") ∧
    (MainFreecad.unfold envOk fileBadMime).created = [] ∧
    MainFreecad.unfold envOk fileBadMime = MainFreecad.unfold envReadFail fileBadMime :=
  bad_mime_rejected_415 envOk envReadFail fileBadMime (by decide) (by decide)

/-- C1 (code bug): a fully successful DXF request still leaves the
uploaded-bytes temp file on disk. The source reassigns `tmp_path` to the
`_ascii.dxf` copy before the `finally` block runs, so the block removes the
ascii copy and the flat export but never the original upload temp file. -/
theorem dxf_request_leaks_upload_temp_file :
    (MainFreecad.unfold envOk fileDxf).response.status = 200 ∧
    (MainFreecad.unfold envOk fileDxf).created
      = ["T0.dxf", "T0.dxf_ascii.dxf", "T1.dxf"] ∧
    (MainFreecad.unfold envOk fileDxf).remaining = ["T0.dxf"] := by
  refine ⟨?_, ?_, ?_⟩ <;> rfl

/-- On the DXF path, once size, MIME, readfile, saveas and import all
pass, the run continues in `afterImport` with the parsed metadata and the
rescaled modelspace written to the ascii copy. -/
lemma unfoldFC_dxf_success (env : Env) (file : Upload) (d : DxfDoc) (s : Shape)
    (hsize : ¬ file.size > 2 * 1024 * 1024)
    (hmime : file.mime ∈ allowedMimes)
    (hsuf : lowerStr (extOf file.filename) = ".dxf")
    (hread : env.readfileResult = .ok d)
    (hsave : env.saveasResult = .ok ())
    (hins : env.insertResult = .ok s) :
    MainFreecad.unfold env file
      = MainFreecad.afterImport env ["T0.dxf", "T0.dxf_ascii.dxf"] "T0.dxf_ascii.dxf"
          (some (scaleMsp (detectUnits (d.insunits.getD 0)).2 d.msp))
          (detectUnits (d.insunits.getD 0)).1 d.layers d.notes s := by
  simp [MainFreecad.unfold, hsize, hmime, hsuf, hread, hsave, hins]

/-- On the non-DXF path, once size, MIME and `Part.read` pass, the run
continues in `afterImport` with no DXF metadata at all. -/
lemma unfoldFC_nondxf (env : Env) (file : Upload) (s : Shape)
    (hsize : ¬ file.size > 2 * 1024 * 1024)
    (hmime : file.mime ∈ allowedMimes)
    (hsuf : lowerStr (extOf file.filename) ≠ ".dxf")
    (hpart : env.partReadResult = .ok s) :
    MainFreecad.unfold env file
      = MainFreecad.afterImport env ["T0" ++ lowerStr (extOf file.filename)]
          ("T0" ++ lowerStr (extOf file.filename)) none "unknown" [] [] s := by
  simp [MainFreecad.unfold, hsize, hmime, hsuf, hpart]

/-- `afterImport` with the unfolder loaded and both the unfold and the
export succeeding yields the full success record. -/
lemma afterImportFC_success (env : Env) (created : List String) (tmpPath : String)
    (ascii : Option (List Entity)) (units : String) (layers notes : List String)
    (shape f : Shape) (dx : String)
    (hunf : env.unfolder = some ())
    (hmk : env.unfoldResult = .ok f)
    (hexp : env.exportResult = .ok dx) :
    MainFreecad.afterImport env created tmpPath ascii units layers notes shape
      = { response := MainFreecad.respSuccess shape (some f) (some dx) layers notes units
          created := created ++ ["T1.dxf"]
          remaining := runFinally (created ++ ["T1.dxf"]) (some tmpPath) (some "T1.dxf")
          asciiSaved := ascii } := by
  simp [MainFreecad.afterImport, hunf, hmk, hexp]

/-- `afterImport` with no unfolder loaded yields the success record with
all flat-pattern values absent. -/
lemma afterImportFC_noUnfolder (env : Env) (created : List String) (tmpPath : String)
    (ascii : Option (List Entity)) (units : String) (layers notes : List String)
    (shape : Shape) (hunf : env.unfolder = none) :
    MainFreecad.afterImport env created tmpPath ascii units layers notes shape
      = { response := MainFreecad.respSuccess shape none none layers notes units
          created := created
          remaining := runFinally created (some tmpPath) none
          asciiSaved := ascii } := by
  simp [MainFreecad.afterImport, hunf]

/-- `afterImport` reads only the unfolder, unfold and export fields of the
environment. -/
lemma afterImportFC_env_agnostic (env env2 : Env)
    (hu : env.unfolder = env2.unfolder)
    (hm : env.unfoldResult = env2.unfoldResult)
    (he : env.exportResult = env2.exportResult)
    (created : List String) (tmpPath : String) (ascii : Option (List Entity))
    (units : String) (layers notes : List String) (shape : Shape) :
    MainFreecad.afterImport env created tmpPath ascii units layers notes shape
      = MainFreecad.afterImport env2 created tmpPath ascii units layers notes shape := by
  simp [MainFreecad.afterImport, hu, hm, he]

/-- The `dxf_units` field of the main_freecad success body is the detected
units string. -/
lemma respSuccessFC_dxf_units (shape : Shape) (flat : Option Shape)
    (dxfData : Option String) (layers notes : List String) (units : String) :
    getField (MainFreecad.respSuccess shape flat dxfData layers notes units).fields
      "dxf_units" = some (.str units) := rfl

/-- The `parsed_layers` and `parsed_notes` fields of the main_freecad
success body are the parsed lists, and `thickness_mm` is the Z length of
the imported shape. -/
lemma respSuccessFC_parsed (shape : Shape) (flat : Option Shape)
    (dxfData : Option String) (layers notes : List String) (units : String) :
    getField (MainFreecad.respSuccess shape flat dxfData layers notes units).fields
      "parsed_layers" = some (.arr (layers.map Json.str)) ∧
    getField (MainFreecad.respSuccess shape flat dxfData layers notes units).fields
      "parsed_notes" = some (.arr (notes.map Json.str)) ∧
    getField (MainFreecad.respSuccess shape flat dxfData layers notes units).fields
      "thickness_mm" = some (.num shape.zlen) := ⟨rfl, rfl, rfl⟩

/-- With no flat result, the three flat fields of the main_freecad success
body are null. -/
lemma respSuccessFC_nulls (shape : Shape) (layers notes : List String) (units : String) :
    getField (MainFreecad.respSuccess shape none none layers notes units).fields
      "flat_pattern" = some .null ∧
    getField (MainFreecad.respSuccess shape none none layers notes units).fields
      "flat_pattern_in" = some .null ∧
    getField (MainFreecad.respSuccess shape none none layers notes units).fields
      "flat_dxf" = some .null := ⟨rfl, rfl, rfl⟩

/-- C2: on a successfully processed DXF upload, a `$INSUNITS` value of 1
reports inch units and leaves every modelspace entity exactly as parsed (no
rescaling), while a value of 4 reports mm units and writes every modelspace
entity scaled uniformly by 0.03937 to the ascii copy handed to the CAD
kernel (entities whose scaling raises are skipped unchanged). -/
theorem insunits_unit_scaling (env : Env) (file : Upload) (d : DxfDoc)
    (s f : Shape) (dx : String)
    (hsize : ¬ file.size > 2 * 1024 * 1024)
    (hmime : file.mime ∈ allowedMimes)
    (hsuf : lowerStr (extOf file.filename) = ".dxf")
    (hread : env.readfileResult = .ok d)
    (hsave : env.saveasResult = .ok ())
    (hins : env.insertResult = .ok s)
    (hunf : env.unfolder = some ())
    (hmk : env.unfoldResult = .ok f)
    (hexp : env.exportResult = .ok dx) :
    (d.insunits = some 1 →
      (MainFreecad.unfold env file).asciiSaved = some d.msp ∧
      getField (MainFreecad.unfold env file).response.fields "dxf_units"
        = some (.str "inch")) ∧
    (d.insunits = some 4 →
      (MainFreecad.unfold env file).asciiSaved
        = some (d.msp.map (scaleEntity (3937/100000))) ∧
      (∀ e ∈ d.msp, e.scalable = true →
        scaleEntity (3937/100000) e = { e with scale := e.scale * (3937/100000) }) ∧
      getField (MainFreecad.unfold env file).response.fields "dxf_units"
        = some (.str "mm")) := by
  have hrw := unfoldFC_dxf_success env file d s hsize hmime hsuf hread hsave hins
  rw [afterImportFC_success env _ _ _ _ _ _ s f dx hunf hmk hexp] at hrw
  constructor
  · intro h1
    have hdu : detectUnits (d.insunits.getD 0) = ("inch", 1) := by rw [h1]; rfl
    rw [hrw, hdu]
    refine ⟨?_, respSuccessFC_dxf_units s (some f) (some dx) d.layers d.notes "inch"⟩
    show some (scaleMsp 1 d.msp) = some d.msp
    simp [scaleMsp]
  · intro h4
    have hdu : detectUnits (d.insunits.getD 0) = ("mm", 3937/100000) := by rw [h4]; rfl
    rw [hrw, hdu]
    refine ⟨?_, ?_, respSuccessFC_dxf_units s (some f) (some dx) d.layers d.notes "mm"⟩
    · show some (scaleMsp (3937/100000) d.msp) = some (d.msp.map (scaleEntity (3937/100000)))
      norm_num [scaleMsp]
    · intro e _ hsc
      simp [scaleEntity, hsc]

/-- Witness for C2: the inch document passes through unscaled and reports
inch; the mm document is written rescaled and reports mm. -/
theorem insunits_unit_scaling_check :
    ((MainFreecad.unfold envInch fileDxf).asciiSaved = some docInch.msp ∧
     getField (MainFreecad.unfold envInch fileDxf).response.fields "dxf_units"
       = some (.str "inch")) ∧
    ((MainFreecad.unfold envOk fileDxf).asciiSaved
       = some (docMm.msp.map (scaleEntity (3937/100000))) ∧
     getField (MainFreecad.unfold envOk fileDxf).response.fields "dxf_units"
       = some (.str "mm")) := by
  constructor
  · exact (insunits_unit_scaling envInch fileDxf docInch shapeA flatA "FLATDXF"
      (by decide) (by decide) (by decide) rfl rfl rfl rfl rfl rfl).1 rfl
  · have h := (insunits_unit_scaling envOk fileDxf docMm shapeA flatA "FLATDXF"
      (by decide) (by decide) (by decide) rfl rfl rfl rfl rfl rfl).2 rfl
    exact ⟨h.1, h.2.2⟩

/-- C10: on a successfully processed DXF upload whose `$INSUNITS` value
(defaulting to 0 when the header entry is absent) is neither 1 nor 4, the
response reports unknown units and the entities are written unchanged. -/
theorem unknown_insunits_no_rescale (env : Env) (file : Upload) (d : DxfDoc)
    (s f : Shape) (dx : String)
    (hsize : ¬ file.size > 2 * 1024 * 1024)
    (hmime : file.mime ∈ allowedMimes)
    (hsuf : lowerStr (extOf file.filename) = ".dxf")
    (hread : env.readfileResult = .ok d)
    (hsave : env.saveasResult = .ok ())
    (hins : env.insertResult = .ok s)
    (hunf : env.unfolder = some ())
    (hmk : env.unfoldResult = .ok f)
    (hexp : env.exportResult = .ok dx)
    (h1 : d.insunits.getD 0 ≠ 1)
    (h4 : d.insunits.getD 0 ≠ 4) :
    (MainFreecad.unfold env file).asciiSaved = some d.msp ∧
    getField (MainFreecad.unfold env file).response.fields "dxf_units"
      = some (.str "unknown") := by
  have hdu : detectUnits (d.insunits.getD 0) = ("unknown", 1) := by
    simp [detectUnits, h1, h4]
  have hrw := unfoldFC_dxf_success env file d s hsize hmime hsuf hread hsave hins
  rw [afterImportFC_success env _ _ _ _ _ _ s f dx hunf hmk hexp] at hrw
  rw [hrw, hdu]
  refine ⟨?_, respSuccessFC_dxf_units s (some f) (some dx) d.layers d.notes "unknown"⟩
  show some (scaleMsp 1 d.msp) = some d.msp
  simp [scaleMsp]

/-- Witness for C10: a DXF with no `$INSUNITS` header entry reports
unknown units and is not rescaled. -/
theorem unknown_insunits_no_rescale_check :
    (MainFreecad.unfold envNoUnits fileDxf).asciiSaved = some docNoUnits.msp ∧
    getField (MainFreecad.unfold envNoUnits fileDxf).response.fields "dxf_units"
      = some (.str "unknown") :=
  unknown_insunits_no_rescale envNoUnits fileDxf docNoUnits shapeA flatA "FLATDXF"
    (by decide) (by decide) (by decide) rfl rfl rfl rfl rfl rfl
    (by decide) (by decide)

/-- C7: an upload whose lowercased extension is not .dxf goes straight to
the generic shape reader: no ascii DXF copy is written, the outcome does
not depend on the DXF parser at all, and the success response reports empty
parsed_layers, empty parsed_notes, unknown dxf_units, and the thickness of
the shape `Part.read` returned. -/
theorem non_dxf_bypasses_dxf_parsing (env : Env) (file : Upload) (s f : Shape) (dx : String)
    (hsize : ¬ file.size > 2 * 1024 * 1024)
    (hmime : file.mime ∈ allowedMimes)
    (hsuf : lowerStr (extOf file.filename) ≠ ".dxf")
    (hpart : env.partReadResult = .ok s)
    (hunf : env.unfolder = some ())
    (hmk : env.unfoldResult = .ok f)
    (hexp : env.exportResult = .ok dx) :
    (MainFreecad.unfold env file).asciiSaved = none ∧
    (∀ X, MainFreecad.unfold { env with readfileResult := X } file
      = MainFreecad.unfold env file) ∧
    (MainFreecad.unfold env file).response.status = 200 ∧
    getField (MainFreecad.unfold env file).response.fields "parsed_layers"
      = some (.arr []) ∧
    getField (MainFreecad.unfold env file).response.fields "parsed_notes"
      = some (.arr []) ∧
    getField (MainFreecad.unfold env file).response.fields "dxf_units"
      = some (.str "unknown") ∧
    getField (MainFreecad.unfold env file).response.fields "thickness_mm"
      = some (.num s.zlen) := by
  have hrw := unfoldFC_nondxf env file s hsize hmime hsuf hpart
  rw [afterImportFC_success env _ _ _ _ _ _ s f dx hunf hmk hexp] at hrw
  refine ⟨?_, ?_, ?_, ?_, ?_, ?_, ?_⟩
  · rw [hrw]
  · intro X
    rw [unfoldFC_nondxf { env with readfileResult := X } file s hsize hmime hsuf hpart,
        unfoldFC_nondxf env file s hsize hmime hsuf hpart]
    exact afterImportFC_env_agnostic _ _ rfl rfl rfl _ _ _ _ _ _ _
  · rw [hrw]; rfl
  · rw [hrw]; exact (respSuccessFC_parsed s (some f) (some dx) [] [] "unknown").1
  · rw [hrw]; exact (respSuccessFC_parsed s (some f) (some dx) [] [] "unknown").2.1
  · rw [hrw]; exact respSuccessFC_dxf_units s (some f) (some dx) [] [] "unknown"
  · rw [hrw]; exact (respSuccessFC_parsed s (some f) (some dx) [] [] "unknown").2.2

/-- Witness for C7: a .step upload succeeds with no ascii copy, ignores the
DXF parser outcome, and reports empty layers/notes and unknown units. -/
theorem non_dxf_bypasses_dxf_parsing_check :
    (MainFreecad.unfold envOk fileStep).asciiSaved = none ∧
    MainFreecad.unfold { envOk with readfileResult := .error "ignored" } fileStep
      = MainFreecad.unfold envOk fileStep ∧
    (MainFreecad.unfold envOk fileStep).response.status = 200 ∧
    getField (MainFreecad.unfold envOk fileStep).response.fields "parsed_layers"
      = some (.arr []) ∧
    getField (MainFreecad.unfold envOk fileStep).response.fields "dxf_units"
      = some (.str "unknown") := by
  have h := non_dxf_bypasses_dxf_parsing envOk fileStep shapeA flatA "FLATDXF"
    (by decide) (by decide) (by decide) rfl rfl rfl rfl
  exact ⟨h.1, h.2.1 (.error "ignored"), h.2.2.1, h.2.2.2.1, h.2.2.2.2.2.1⟩

/-- C9: when the SheetMetalUnfolder module failed to load, a request with
a passing import path still gets a 200 response in which flat_pattern,
flat_pattern_in and flat_dxf are all null. -/
theorem missing_unfolder_yields_null_flats (env : Env) (file : Upload)
    (hsize : ¬ file.size > 2 * 1024 * 1024)
    (hmime : file.mime ∈ allowedMimes)
    (hnone : env.unfolder = none)
    (hpath : importPathOk env (lowerStr (extOf file.filename))) :
    (MainFreecad.unfold env file).response.status = 200 ∧
    getField (MainFreecad.unfold env file).response.fields "flat_pattern"
      = some .null ∧
    getField (MainFreecad.unfold env file).response.fields "flat_pattern_in"
      = some .null ∧
    getField (MainFreecad.unfold env file).response.fields "flat_dxf"
      = some .null := by
  by_cases hs : lowerStr (extOf file.filename) = ".dxf"
  · unfold importPathOk at hpath
    rw [if_pos hs] at hpath
    obtain ⟨⟨d, hd⟩, hsave, s, hins⟩ := hpath
    rw [unfoldFC_dxf_success env file d s hsize hmime hs hd hsave hins,
        afterImportFC_noUnfolder env _ _ _ _ _ _ s hnone]
    exact ⟨rfl, (respSuccessFC_nulls s d.layers d.notes _).1,
      (respSuccessFC_nulls s d.layers d.notes _).2.1,
      (respSuccessFC_nulls s d.layers d.notes _).2.2⟩
  · unfold importPathOk at hpath
    rw [if_neg hs] at hpath
    obtain ⟨s, hp⟩ := hpath
    rw [unfoldFC_nondxf env file s hsize hmime hs hp,
        afterImportFC_noUnfolder env _ _ _ _ _ _ s hnone]
    exact ⟨rfl, (respSuccessFC_nulls s [] [] "unknown").1,
      (respSuccessFC_nulls s [] [] "unknown").2.1,
      (respSuccessFC_nulls s [] [] "unknown").2.2⟩

/-- Witness for C9: with the unfolder missing, a valid DXF request returns
200 with the three flat fields null. -/
theorem missing_unfolder_yields_null_flats_check :
    (MainFreecad.unfold envNoUnfolder fileDxf).response.status = 200 ∧
    getField (MainFreecad.unfold envNoUnfolder fileDxf).response.fields "flat_pattern"
      = some .null ∧
    getField (MainFreecad.unfold envNoUnfolder fileDxf).response.fields "flat_pattern_in"
      = some .null ∧
    getField (MainFreecad.unfold envNoUnfolder fileDxf).response.fields "flat_dxf"
      = some .null :=
  missing_unfolder_yields_null_flats envNoUnfolder fileDxf (by decide) (by decide) rfl
    (by
      have h : lowerStr (extOf fileDxf.filename) = ".dxf" := by decide
      unfold importPathOk
      rw [h, if_pos rfl]
      exact ⟨⟨docMm, rfl⟩, rfl, ⟨shapeA, rfl⟩⟩)

/-- C5: every run of either handler ends in a response (no exception
escapes the model), with status 200, 413, 415 or 500, and every 500
response body is a JSON object with an error message and a details
field. -/
theorem failures_converted_to_500 (env : Env) (file : Upload) :
    ((MainFreecad.unfold env file).response.status = 200 ∨
     (MainFreecad.unfold env file).response.status = 413 ∨
     (MainFreecad.unfold env file).response.status = 415 ∨
     (MainFreecad.unfold env file).response.status = 500) ∧
    ((MainFreecad.unfold env file).response.status = 500 →
      ∃ m dt, (MainFreecad.unfold env file).response.body
        = .jsonObj [("error", .str m), ("details", .str dt)]) ∧
    ((MainPy.unfold env file).response.status = 200 ∨
     (MainPy.unfold env file).response.status = 500) ∧
    ((MainPy.unfold env file).response.status = 500 →
      ∃ dt, (MainPy.unfold env file).response.body
        = .jsonObj [("error", .str "Unfolding failed"), ("details", .str dt)]) := by
  have hfc := unfoldFC_response_cases env file
  have hpy := unfoldPy_response_cases env file
  refine ⟨?_, ?_, ?_, ?_⟩
  · rcases hfc with h | h | ⟨e, h⟩ | ⟨e, h⟩ | ⟨s, f, dx, l, n, u, h⟩ <;> rw [h] <;>
      simp [MainFreecad.resp413, MainFreecad.resp415, MainFreecad.resp500request,
        MainFreecad.resp500unfoldFail, MainFreecad.respSuccess]
  · intro h500
    rcases hfc with h | h | ⟨e, h⟩ | ⟨e, h⟩ | ⟨s, f, dx, l, n, u, h⟩
    · rw [h] at h500; simp [MainFreecad.resp413] at h500
    · rw [h] at h500; simp [MainFreecad.resp415] at h500
    · exact ⟨"Request failed", e, by rw [h]; rfl⟩
    · exact ⟨"Unfolding failed", e, by rw [h]; rfl⟩
    · rw [h] at h500; simp [MainFreecad.respSuccess] at h500
  · rcases hpy with ⟨e, h⟩ | ⟨s, f, dx, l, n, u, h⟩ <;> rw [h] <;>
      simp [MainPy.resp500, MainPy.respSuccess]
  · intro h500
    rcases hpy with ⟨e, h⟩ | ⟨s, f, dx, l, n, u, h⟩
    · exact ⟨e, by rw [h]; rfl⟩
    · rw [h] at h500; simp [MainPy.respSuccess] at h500

/-- Witness for C5: a failing ezdxf readfile call becomes a 500 with error
and details fields. -/
theorem failures_converted_to_500_check :
    (MainFreecad.unfold envReadFail fileDxf).response.status = 500 ∧
    (∃ m dt, (MainFreecad.unfold envReadFail fileDxf).response.body
      = .jsonObj [("error", .str m), ("details", .str dt)]) :=
  ⟨rfl, (failures_converted_to_500 envReadFail fileDxf).2.1 rfl⟩

/-- C6 counterexample: a fully successful request to the main.py variant
returns 200 with a body that has no customer_name, part_number or
flat_pattern_in keys at all, and the main_freecad variant returns no
bounding_box_mm key; neither variant carries every field the claim lists. -/
theorem success_body_missing_claimed_fields :
    (MainPy.unfold envOk fileDxf).response.status = 200 ∧
    (MainPy.unfold envOk fileDxf).response.keys
      = ["bounding_box_mm", "flat_pattern", "flat_dxf", "parsed_layers",
         "parsed_notes", "dxf_units"] ∧
    ((MainPy.unfold envOk fileDxf).response.keys.contains "customer_name") = false ∧
    ((MainPy.unfold envOk fileDxf).response.keys.contains "part_number") = false ∧
    ((MainPy.unfold envOk fileDxf).response.keys.contains "flat_pattern_in") = false ∧
    (MainFreecad.unfold envOk fileDxf).response.status = 200 ∧
    ((MainFreecad.unfold envOk fileDxf).response.keys.contains "bounding_box_mm") = false :=
  ⟨rfl, rfl, rfl, rfl, rfl, rfl, rfl⟩

/-- C6 as amended: each variant returns a fixed key set on success: the
main_freecad variant returns flat pattern dims (mm and inch), thickness
(the bounding-box Z length, mm and inch), parsed layers and notes, units,
the scraped customer/part/description fields and the flat DXF text, with
no X/Y bounding-box dims; the main.py variant returns the full bounding
box, flat pattern (mm only), flat DXF text, parsed layers and notes and
units, with no inch dims and no scraped fields. -/
theorem success_body_fields_per_variant (env : Env) (file : Upload) (d : DxfDoc)
    (s f : Shape) (dx : String)
    (hsize : ¬ file.size > 2 * 1024 * 1024)
    (hmime : file.mime ∈ allowedMimes)
    (hsuf : lowerStr (extOf file.filename) = ".dxf")
    (hread : env.readfileResult = .ok d)
    (hsave : env.saveasResult = .ok ())
    (hins : env.insertResult = .ok s)
    (hunf : env.unfolder = some ())
    (hmk : env.unfoldResult = .ok f)
    (hexp : env.exportResult = .ok dx) :
    (MainFreecad.unfold env file).response.keys
      = ["flat_pattern", "flat_pattern_in", "thickness_mm", "thickness_in",
         "parsed_layers", "parsed_notes", "dxf_units", "customer_name",
         "part_number", "part_description", "flat_dxf"] ∧
    (MainPy.unfold env file).response.keys
      = ["bounding_box_mm", "flat_pattern", "flat_dxf", "parsed_layers",
         "parsed_notes", "dxf_units"] := by
  constructor
  · have hrw := unfoldFC_dxf_success env file d s hsize hmime hsuf hread hsave hins
    rw [afterImportFC_success env _ _ _ _ _ _ s f dx hunf hmk hexp] at hrw
    rw [hrw]
    rfl
  · simp [MainPy.unfold, MainPy.afterImport, hsuf, hread, hsave, hins, hunf, hmk, hexp,
      Response.keys, Response.fields, MainPy.respSuccess]

/-- Witness for C6 as amended: the key sets of both variants on one
successful DXF request. -/
theorem success_body_fields_per_variant_check :
    (MainFreecad.unfold envOk fileDxf).response.keys
      = ["flat_pattern", "flat_pattern_in", "thickness_mm", "thickness_in",
         "parsed_layers", "parsed_notes", "dxf_units", "customer_name",
         "part_number", "part_description", "flat_dxf"] ∧
    (MainPy.unfold envOk fileDxf).response.keys
      = ["bounding_box_mm", "flat_pattern", "flat_dxf", "parsed_layers",
         "parsed_notes", "dxf_units"] :=
  success_body_fields_per_variant envOk fileDxf docMm shapeA flatA "FLATDXF"
    (by decide) (by decide) (by decide) rfl rfl rfl rfl rfl rfl

/-- C8: with the configured limit of 10 per minute per address, a request
whose window already holds 10 or more same-address same-minute requests
gets the 429 response regardless of environment and upload (the handler is
not invoked), and a request under the limit is processed by the handler. -/
theorem rate_limit_throttles_to_429 (env env2 : Env) (file file2 : Upload)
    (history : List ClientReq) (r : ClientReq) :
    resp429.status = 429 ∧
    (10 ≤ countWindow history r →
      rateLimitedUnfold env file history r = resp429 ∧
      rateLimitedUnfold env file history r = rateLimitedUnfold env2 file2 history r) ∧
    (countWindow history r < 10 →
      rateLimitedUnfold env file history r = (MainFreecad.unfold env file).response) := by
  refine ⟨rfl, ?_, ?_⟩
  · intro h
    have hn : ¬ countWindow history r < 10 := Nat.not_lt.mpr h
    simp [rateLimitedUnfold, hn]
  · intro h
    simp [rateLimitedUnfold, h]

/-- Witness for C8: the 11th same-address request in one minute gets the
429 response, whatever the environment and upload. -/
theorem rate_limit_throttles_to_429_check :
    rateLimitedUnfold envOk fileDxf history10 ⟨"10.0.0.1", 7⟩ = resp429 ∧
    rateLimitedUnfold envOk fileDxf history10 ⟨"10.0.0.1", 7⟩
      = rateLimitedUnfold envReadFail fileStep history10 ⟨"10.0.0.1", 7⟩ :=
  (rate_limit_throttles_to_429 envOk envReadFail fileDxf fileStep history10
    ⟨"10.0.0.1", 7⟩).2.1 (by decide)
